import Mathlib

/-!
Shallow embedding of the simple-rpc-load-test harness and proofs about it.

The embedding covers:
* the range partitioners (createBlocksList in src/lib/utils.ts, and
  createBlocksListLogs in the unnamed utils variant),
* the statistics display (displayStats), including the JavaScript semantics
  of Math.min / Math.max / division on an empty sample list,
* the JSON-RPC request-body builders (makeBatchRequest, the two fetchLogs
  variants),
* the log-scan coverage computation and its accumulation,
* the configuration parser (parseBaseConfig, createScenario), and
* the bounded-concurrency dispatch loop of runRpcTest (and the variant in
  src/getLog/index.ts), modelled as a small-step state machine whose steps
  are the serialized promise-completion callbacks.
-/

namespace LoadTest

/-! ## Range partitioner: createBlocksList (src/lib/utils.ts, lines 28-52) -/

/-- Inner chunk of the chunked branch of createBlocksList: the JS inner loop
pushes i + j for j < chunkSize while i + j <= endBlock, i.e. the run of
consecutive integers starting at i of length min chunkSize (endBlock + 1 - i). -/
def chunkAt (endBlock chunkSize i : Nat) : List Nat :=
  List.range' i (min chunkSize (endBlock + 1 - i))

/-- Outer loop of the chunked branch of createBlocksList: for
(i = startBlock; i <= endBlock; i += chunkSize) push the chunk at i.
The JS loop only runs in the chunkSize > 1 branch; the positivity
hypothesis is what makes it terminate. -/
def chunkLoop (endBlock chunkSize : Nat) (hpos : 1 ≤ chunkSize) (i : Nat) :
    List (List Nat) :=
  if i ≤ endBlock then
    chunkAt endBlock chunkSize i :: chunkLoop endBlock chunkSize hpos (i + chunkSize)
  else []
termination_by endBlock + 1 - i
decreasing_by omega

/-- createBlocksList from src/lib/utils.ts (identical, up to parameter
names, to the copy in the unnamed utils variant): chunkSize <= 1 yields one
singleton per block; otherwise consecutive chunks of up to chunkSize blocks. -/
def createBlocksList (startBlock endBlock : Nat) (chunkSize : Nat := 100) :
    List (List Nat) :=
  if h : chunkSize ≤ 1 then
    (List.range' startBlock (endBlock + 1 - startBlock)).map (fun i => [i])
  else
    chunkLoop endBlock chunkSize (by omega) startBlock

/-! ## Range partitioner for log scans: createBlocksListLogs
    (unnamed utils variant, lines 75-99) -/

/-- While-loop of createBlocksListLogs building the individual block ranges:
while currentStart <= endBlock push (currentStart, currentEnd) with
currentEnd = min (currentStart + blockRange - 1) endBlock and continue from
currentEnd + 1. The loop only terminates for blockRange >= 1, which is the
hypothesis carried here. -/
def logRangesLoop (endBlock blockRange : Nat) (hpos : 1 ≤ blockRange)
    (currentStart : Nat) : List (Nat × Nat) :=
  if currentStart ≤ endBlock then
    (currentStart, min (currentStart + blockRange - 1) endBlock) ::
      logRangesLoop endBlock blockRange hpos
        (min (currentStart + blockRange - 1) endBlock + 1)
  else []
termination_by endBlock + 1 - currentStart
decreasing_by omega

/-- Batching loop of createBlocksListLogs: for (i = 0; i < ranges.length;
i += batchSize) push ranges.slice(i, i + batchSize). The loop only
terminates for batchSize >= 1, which is the hypothesis carried here. -/
def batchSliceLoop (batchSize : Nat) (hpos : 1 ≤ batchSize)
    (ranges : List (Nat × Nat)) (i : Nat) : List (List (Nat × Nat)) :=
  if i < ranges.length then
    (ranges.drop i).take batchSize ::
      batchSliceLoop batchSize hpos ranges (i + batchSize)
  else []
termination_by ranges.length - i
decreasing_by omega

/-- createBlocksListLogs from the unnamed utils variant: the ordered list of
(fromBlock, toBlock) windows of width blockRange covering the interval,
grouped in order into HTTP batches of batchSize windows each. -/
def createBlocksListLogs (startBlock endBlock : Nat) (blockRange : Nat := 1000)
    (batchSize : Nat := 1) (hbr : 1 ≤ blockRange := by omega)
    (hbs : 1 ≤ batchSize := by omega) : List (List (Nat × Nat)) :=
  batchSliceLoop batchSize hbs (logRangesLoop endBlock blockRange hbr startBlock) 0

/-- Block numbers covered by one (fromBlock, toBlock) window, as the
ascending list of all integers of the inclusive range. -/
def windowBlocks (p : Nat × Nat) : List Nat :=
  List.range' p.1 (p.2 + 1 - p.1)

/-! ## Statistics display: displayStats (src/lib/utils.ts, lines 57-71)

Latencies are modelled as rationals. JavaScript numeric edge cases that
matter here are modelled explicitly: Math.min of no arguments is Infinity,
Math.max of no arguments is -Infinity, and 0 / 0 is NaN. -/

/-- Value of a JavaScript numeric expression as displayStats produces it:
either a finite number, or one of the non-finite values Infinity,
-Infinity, NaN that the spread of an empty durations array yields. -/
inductive JsNum where
  | num (v : ℚ)
  | posInf
  | negInf
  | nan
deriving DecidableEq, Repr

/-- Math.min applied to the spread of a list: Infinity when the list is
empty, otherwise the least element. -/
def jsMin : List ℚ → JsNum
  | [] => .posInf
  | x :: xs => .num (xs.foldl min x)

/-- Math.max applied to the spread of a list: -Infinity when the list is
empty, otherwise the greatest element. -/
def jsMax : List ℚ → JsNum
  | [] => .negInf
  | x :: xs => .num (xs.foldl max x)

/-- durations.reduce((acc, val) => acc + val, 0) / durations.length:
0 / 0 is NaN in JavaScript, otherwise the arithmetic mean. -/
def jsAvg : List ℚ → JsNum
  | [] => .nan
  | x :: xs => .num ((x :: xs).sum / (x :: xs).length)

/-- Numeric content of the summary block printed by displayStats. -/
structure StatsReport where
  totalRequests : Nat
  totalBlocks : Nat
  minTime : JsNum
  maxTime : JsNum
  avgTime : JsNum
deriving DecidableEq, Repr

/-- displayStats from src/lib/utils.ts: computes min, max and mean over the
recorded durations with no emptiness guard, and reports durations.length as
the request count. -/
def displayStats (durations : List ℚ) (totalBlocks : Nat) : StatsReport :=
  { totalRequests := durations.length
    totalBlocks := totalBlocks
    minTime := jsMin durations
    maxTime := jsMax durations
    avgTime := jsAvg durations }

/-! ## Bounded dispatcher: runRpcTest (src/lib/utils.ts, lines 110-169)

The dispatch loop is modelled as a small-step state machine. JavaScript
serializes the promise-completion callbacks, so one step of the machine is
one whole then- or catch-handler (which itself synchronously re-enters
dispatch). The multiset of in-flight requests is modelled by the list
pending of launched-but-uncompleted chunk indices; activeRequests is
modelled as an integer exactly as in the source.

Parameters of a run: N = config.concurrency, T = blockChunks.length,
outcome j = whether the request for chunk j settles successfully, and
lat j = its measured duration. -/

/-- Mutable run-scoped state of runRpcTest. durations, activeRequests and
index are the source's variables; pending models the set of in-flight
invocations; resolvedCount counts calls of resolve; report records the
durations array displayStats was shown at the moment resolve fired;
rejectedCount counts calls of reject (used only by the getLog variant). -/
structure RunState where
  active : Int
  pending : List Nat
  index : Nat
  durations : List ℚ
  resolvedCount : Nat
  report : Option (List ℚ)
  rejectedCount : Nat
deriving DecidableEq, Repr

/-- While-loop at the head of dispatch: while activeRequests < concurrency
and index < blockChunks.length, launch the request for chunk index
(activeRequests++, the new chunk becomes in-flight, index++). -/
def launchLoop (N : Int) (T : Nat) (s : RunState) : RunState :=
  if s.active < N ∧ s.index < T then
    launchLoop N T
      { s with
        active := s.active + 1
        pending := s.pending ++ [s.index]
        index := s.index + 1 }
  else s
termination_by T - s.index
decreasing_by omega

/-- Completion check at the end of dispatch: if index >= blockChunks.length
and activeRequests === 0, call displayStats on the durations recorded so
far and resolve the run promise. -/
def checkCompletion (T : Nat) (s : RunState) : RunState :=
  if T ≤ s.index ∧ s.active = 0 then
    { s with
      resolvedCount := s.resolvedCount + 1
      report := some s.durations }
  else s

/-- One synchronous execution of the dispatch function. -/
def dispatch (N : Int) (T : Nat) (s : RunState) : RunState :=
  checkCompletion T (launchLoop N T s)

/-- then-handler of runRpcTest for chunk j: activeRequests--, the request
leaves the in-flight set, dispatch() re-runs, and only afterwards is the
measured duration pushed onto durations. -/
def onSuccess (N : Int) (T : Nat) (lat : Nat → ℚ) (j : Nat) (s : RunState) :
    RunState :=
  let s2 := dispatch N T
    { s with active := s.active - 1, pending := s.pending.erase j }
  { s2 with durations := s2.durations ++ [lat j] }

/-- catch-handler of runRpcTest for chunk j: the error is logged,
activeRequests--, the request leaves the in-flight set, and dispatch()
re-runs; nothing is pushed onto durations. -/
def onFailure (N : Int) (T : Nat) (j : Nat) (s : RunState) : RunState :=
  dispatch N T { s with active := s.active - 1, pending := s.pending.erase j }

/-- One scheduler step of a runRpcTest run: some in-flight request settles
and its whole then- or catch-handler executes. -/
inductive Step (N : Int) (T : Nat) (outcome : Nat → Bool) (lat : Nat → ℚ) :
    RunState → RunState → Prop
  | success {s : RunState} {j : Nat} (hj : j ∈ s.pending)
      (ho : outcome j = true) :
      Step N T outcome lat s (onSuccess N T lat j s)
  | failure {s : RunState} {j : Nat} (hj : j ∈ s.pending)
      (ho : outcome j = false) :
      Step N T outcome lat s (onFailure N T j s)

/-- State of the run before the initial dispatch call. -/
def initState : RunState :=
  { active := 0, pending := [], index := 0, durations := [],
    resolvedCount := 0, report := none, rejectedCount := 0 }

/-- State of the run right after the kick-off dispatch call. -/
def startState (N : Int) (T : Nat) : RunState :=
  dispatch N T initState

/-- Reachable states of a runRpcTest run: the kick-off dispatch followed by
any interleaving of request completions. -/
def Reachable (N : Int) (T : Nat) (outcome : Nat → Bool) (lat : Nat → ℚ)
    (s : RunState) : Prop :=
  Relation.ReflTransGen (Step N T outcome lat) (startState N T) s

/-- Number of pending completions plus undispatched chunks. Every scheduler
step strictly decreases it (step_decreases_measure), so a run performs at
most T completion handlers and always drains. -/
def stepMeasure (T : Nat) (s : RunState) : Nat :=
  s.pending.length + (T - s.index)

/-- Run-long invariant of the runRpcTest dispatch loop. -/
structure Inv (N : Int) (T : Nat) (s : RunState) : Prop where
  act_len : s.active = (s.pending.length : Int)
  act_le : s.active ≤ N
  idx_le : s.index ≤ T
  saturated : s.active < N → T ≤ s.index
  res : s.resolvedCount = if T ≤ s.index ∧ s.active = 0 then 1 else 0

/-! ## The dispatch-loop variant of src/getLog/index.ts (lines 42-104)

Same launch loop and completion check as runRpcTest, but the catch handler
is .catch((err) => reject(err)): it rejects the run promise without
decrementing activeRequests and without re-entering dispatch. -/

/-- catch-handler of the src/getLog/index.ts runTest for range j: the run
promise is rejected; activeRequests is NOT decremented and dispatch is not
re-entered. The settled request is no longer in flight. -/
def onReject (j : Nat) (s : RunState) : RunState :=
  { s with pending := s.pending.erase j,
           rejectedCount := s.rejectedCount + 1 }

/-- One scheduler step of a src/getLog/index.ts runTest run. -/
inductive GStep (N : Int) (T : Nat) (outcome : Nat → Bool) (lat : Nat → ℚ) :
    RunState → RunState → Prop
  | success {s : RunState} {j : Nat} (hj : j ∈ s.pending)
      (ho : outcome j = true) :
      GStep N T outcome lat s (onSuccess N T lat j s)
  | failure {s : RunState} {j : Nat} (hj : j ∈ s.pending)
      (ho : outcome j = false) :
      GStep N T outcome lat s (onReject j s)

/-- Reachable states of a src/getLog/index.ts runTest run. -/
def GReachable (N : Int) (T : Nat) (outcome : Nat → Bool) (lat : Nat → ℚ)
    (s : RunState) : Prop :=
  Relation.ReflTransGen (GStep N T outcome lat) (startState N T) s

/-! ## JSON-RPC request bodies (makeBatchRequest in src/lib/utils.ts lines
76-105; fetchLogs in src/getLog/index.ts lines 16-40; the batch fetchLogs
of the unnamed getLogs variant) -/

/-- JSON value, as much of it as the request payloads need. -/
inductive Json where
  | str (s : String)
  | num (n : Nat)
  | bool (b : Bool)
  | arr (xs : List Json)
  | obj (fields : List (String × Json))

/-- One JSON-RPC call object. -/
structure RpcCall where
  jsonrpc : String
  id : Nat
  method : String
  params : List Json

/-- Body of one HTTP POST: either a JSON array of call objects (a batch) or
a single bare call object. -/
inductive RequestBody where
  | batch (calls : List RpcCall)
  | single (call : RpcCall)

/-- Whether JSON.stringify of the body produces a JSON array. -/
def RequestBody.isArray : RequestBody → Bool
  | .batch _ => true
  | .single _ => false

/-- blockNum.toString(16) prefixed with "0x": block-number encoding used by
every call site (JavaScript Number.toString(16) produces lowercase hex). -/
def toHexString (n : Nat) : String :=
  "0x" ++ String.mk (Nat.toDigits 16 n)

/-- Payload built by makeBatchRequest: blockNumbers.map((blockNum, index)
=> ({jsonrpc: "2.0", id: index + 1, method, params:
paramsTransformer(blockNum)})), sent as a JSON array. -/
def makeBatchRequestPayload (rpcMethod : String) (blockNumbers : List Nat)
    (paramsTransformer : Nat → List Json) : RequestBody :=
  .batch (blockNumbers.enum.map fun p =>
    { jsonrpc := "2.0", id := p.1 + 1, method := rpcMethod,
      params := paramsTransformer p.2 })

/-- paramsTransformer of the eth_getBlockByNumber entry point:
(blockNum) => ["0x" + blockNum.toString(16), false]. -/
def getBlockByNumberParams (blockNum : Nat) : List Json :=
  [.str (toHexString blockNum), .bool false]

/-- paramsTransformer of the eth_getBlockReceipts entry point:
(blockNum) => ["0x" + blockNum.toString(16)]. -/
def getBlockReceiptsParams (blockNum : Nat) : List Json :=
  [.str (toHexString blockNum)]

/-- eth_getLogs filter object as built by the callers of the single-call
fetchLogs: hex-encoded fromBlock and toBlock plus address and topics. -/
def ethGetLogsFilter (fromBlock toBlock : Nat)
    (addresses topics : List String) : Json :=
  .obj [("fromBlock", .str (toHexString fromBlock)),
        ("toBlock", .str (toHexString toBlock)),
        ("address", .arr (addresses.map .str)),
        ("topics", .arr (topics.map .str))]

/-- Body built by fetchLogs in src/getLog/index.ts: a single bare call
object {jsonrpc: "2.0", id: 1, method: "eth_getLogs", params: [params]} --
not wrapped in an array. -/
def fetchLogsSingleBody (filter : Json) : RequestBody :=
  .single { jsonrpc := "2.0", id := 1, method := "eth_getLogs",
            params := [filter] }

/-- Payload built by the batch fetchLogs of the unnamed getLogs variant:
one call object per (fromBlock, toBlock) window, ids 1-based sequential,
sent as a JSON array. -/
def fetchLogsBatchPayload (blockRanges : List (Nat × Nat))
    (addresses topics : List String) : RequestBody :=
  .batch (blockRanges.enum.map fun p =>
    { jsonrpc := "2.0", id := p.1 + 1, method := "eth_getLogs",
      params := [ethGetLogsFilter p.2.1 p.2.2 addresses topics] })

/-- Lowercase hexadecimal digit characters: a decimal digit or one of the
lowercase letters a through f. -/
def isLowerHexDigit (c : Char) : Prop :=
  ('0' ≤ c ∧ c ≤ '9') ∨ ('a' ≤ c ∧ c ≤ 'f')

instance (c : Char) : Decidable (isLowerHexDigit c) := by
  unfold isLowerHexDigit
  infer_instance

/-! ## Log-scan coverage computation (batch fetchLogs of the unnamed
getLogs variant, lines 76-105 of its file) -/

/-- One element of the parsed JSON-RPC batch response, reduced to the data
the coverage computation reads: its id and the length of data.result || []. -/
structure RpcResponseItem where
  id : Int
  resultCount : Nat
deriving DecidableEq, Repr

/-- Number.MAX_SAFE_INTEGER, the initial value of minBlock. -/
def maxSafeInteger : Nat := 2 ^ 53 - 1

/-- blockRanges[id - 1] with JavaScript array-indexing semantics: undefined
(none) when id - 1 is negative or past the end. -/
def rangeAt (blockRanges : List (Nat × Nat)) (id : Int) : Option (Nat × Nat) :=
  if h : 0 ≤ id - 1 ∧ (id - 1).toNat < blockRanges.length then
    some (blockRanges.get ⟨(id - 1).toNat, h.2⟩)
  else none

/-- Body of the results.forEach loop: if the response id keys back to a
requested range, fold its bounds into the running (minBlock, maxBlock). -/
def coverFold (blockRanges : List (Nat × Nat)) (mm : Nat × Nat)
    (item : RpcResponseItem) : Nat × Nat :=
  match rangeAt blockRanges item.id with
  | some r => (min mm.1 r.1, max mm.2 r.2)
  | none => mm

/-- Per-request result of the batch fetchLogs, minus the measured duration:
total log count and the (fromBlock, toBlock) coverage it reports. -/
structure LogsCoverage where
  logsCount : Nat
  fromBlock : Nat
  toBlock : Nat
deriving DecidableEq, Repr

/-- Response post-processing of the batch fetchLogs: totalLogs sums the
result lengths; minBlock starts at Number.MAX_SAFE_INTEGER and maxBlock at
0; each response item whose id matches a requested range lowers/raises
them; the returned fromBlock is 0 when minBlock was never touched. -/
def fetchLogsCoverage (blockRanges : List (Nat × Nat))
    (results : List RpcResponseItem) : LogsCoverage :=
  let totalLogs := (results.map fun r => r.resultCount).sum
  let mm := results.foldl (coverFold blockRanges) (maxSafeInteger, 0)
  { logsCount := totalLogs
    fromBlock := if mm.1 = maxSafeInteger then 0 else mm.1
    toBlock := mm.2 }

/-- totalBlocksScanned += result.toBlock - result.fromBlock + 1, the
accumulation step of the getLogs runTest then-handler. -/
def addBlocksScanned (totalBlocksScanned : Int) (r : LogsCoverage) : Int :=
  totalBlocksScanned + ((r.toBlock : Int) - (r.fromBlock : Int) + 1)

/-! ## Configuration parsing (src/lib/config.ts) -/

/-- Value of a numeric environment variable as the JavaScript code sees it:
unset (or empty, which || treats the same), set but not parsing as a number
(Number(...) is NaN), or parsing to a number. -/
inductive EnvNum where
  | unset
  | nan
  | num (v : Int)
deriving DecidableEq, Repr

/-- Outcome of a configuration-loading code path: a value, process.exit
with the given code, or an uncaught thrown Error (which terminates the
node process abnormally). -/
inductive ConfigResult (α : Type) where
  | ok (value : α)
  | exit (code : Nat)
  | thrown (msg : String)
deriving DecidableEq, Repr

/-- Sequencing of configuration steps: an exit or a throw aborts the rest. -/
def ConfigResult.bind {α β : Type} :
    ConfigResult α → (α → ConfigResult β) → ConfigResult β
  | .ok a, f => f a
  | .exit c, _ => .exit c
  | .thrown m, _ => .thrown m

/-- Whether the path produced a value. -/
def ConfigResult.isOk {α : Type} : ConfigResult α → Bool
  | .ok _ => true
  | _ => false

/-- BaseConfig from src/lib/config.ts. -/
structure BaseConfig where
  rpcUrl : String
  concurrency : Int
  startBlock : Int
  endBlock : Int
  batchSize : Int
deriving DecidableEq, Repr

/-- parseBaseConfig from src/lib/config.ts: exit 1 when the RPC URL is
missing; FETCH_CONCURRENCY defaults to 5 and throws when NaN, above 100000
or below 0; START_BLOCK and END_BLOCK default and exit 1 when NaN;
CHUNK_SIZE defaults and exits 1 when NaN or below 1. -/
def parseBaseConfig (rpcUrl : Option String)
    (fetchConcurrencyEnv startBlockEnv endBlockEnv batchSizeEnv : EnvNum)
    (defaultStartBlock : Int := 0) (defaultEndBlock : Int := 1000)
    (defaultbatchSize : Int := 100) : ConfigResult BaseConfig :=
  match rpcUrl with
  | none => .exit 1
  | some url =>
    ((match fetchConcurrencyEnv with
      | .unset => .ok 5
      | .nan => .thrown
          "FETCH_CONCURRENCY environment variable must be a number less than 100000"
      | .num v =>
        if 100000 < v ∨ v < 0 then
          .thrown
            "FETCH_CONCURRENCY environment variable must be a number less than 100000"
        else .ok v : ConfigResult Int)).bind fun concurrency =>
    ((match startBlockEnv with
      | .unset => .ok defaultStartBlock
      | .nan => .exit 1
      | .num v => .ok v : ConfigResult Int)).bind fun startBlock =>
    ((match endBlockEnv with
      | .unset => .ok defaultEndBlock
      | .nan => .exit 1
      | .num v => .ok v : ConfigResult Int)).bind fun endBlock =>
    ((match batchSizeEnv with
      | .unset => .ok defaultbatchSize
      | .nan => .exit 1
      | .num v => if v < 1 then .exit 1 else .ok v : ConfigResult Int)).bind
      fun batchSize =>
    .ok { rpcUrl := url, concurrency := concurrency, startBlock := startBlock,
          endBlock := endBlock, batchSize := batchSize }

/-- scenario record type from src/lib/config.ts. -/
structure scenario where
  rpcUrl : String
  addresses : List String
  topics : List String
  concurrency : Int
  startBlock : Int
  endBlock : Int
  batchSize : Int
  blockRange : Int
deriving DecidableEq, Repr

/-- createScenario from src/lib/config.ts: four named scenarios, each built
on parseBaseConfig with scenario-specific default blocks; any other
scenario name logs "not found. Using default configuration." and proceeds
with the default configuration (it does NOT exit). blockRange is fixed at
1000. The address lists are abbreviated to their first entries; only the
control flow and the numeric configuration matter here. -/
def createScenario (rpcUrl : Option String) (scenarioName : String)
    (fetchConcurrencyEnv startBlockEnv endBlockEnv batchSizeEnv : EnvNum) :
    ConfigResult scenario :=
  match scenarioName with
  | "usdc-approvals" =>
    (parseBaseConfig rpcUrl fetchConcurrencyEnv startBlockEnv endBlockEnv
        batchSizeEnv 2797221 24277300 100).bind fun c =>
      .ok { rpcUrl := c.rpcUrl,
            addresses := ["0x833589fCD6eDb6E08f4c7C32D4f71b54bdA02913"],
            topics :=
              ["0x8c5be1e5ebec7d5bd14f71427d1e84f3dd0314c0f7b2291e5b200ac8c7c3b925"],
            concurrency := c.concurrency, startBlock := c.startBlock,
            endBlock := c.endBlock, batchSize := c.batchSize,
            blockRange := 1000 }
  | "usdc-aave-withdrawals" =>
    (parseBaseConfig rpcUrl fetchConcurrencyEnv startBlockEnv endBlockEnv
        batchSizeEnv 8192239 24277300 100).bind fun c =>
      .ok { rpcUrl := c.rpcUrl,
            addresses := ["0x833589fCD6eDb6E08f4c7C32D4f71b54bdA02913"],
            topics :=
              ["0xddf252ad1be2c89b69c2b068fc378daa952ba7f163c4a11628f55a4df523b3ef",
               "0x0000000000000000000000004e65fE4DbA92790696d040ac24Aa414708F5c0AB"],
            concurrency := c.concurrency, startBlock := c.startBlock,
            endBlock := c.endBlock, batchSize := c.batchSize,
            blockRange := 1000 }
  | "user-token-transfers" =>
    (parseBaseConfig rpcUrl fetchConcurrencyEnv startBlockEnv endBlockEnv
        batchSizeEnv 9399440 24277300 100).bind fun c =>
      .ok { rpcUrl := c.rpcUrl,
            addresses := ["0x833589fCD6eDb6E08f4c7C32D4f71b54bdA02913"],
            topics :=
              ["0xddf252ad1be2c89b69c2b068fc378daa952ba7f163c4a11628f55a4df523b3ef",
               "0x00000000000000000000000014c5Ca9F70dFc36Ce5919A460CF2E48D7e933cEE"],
            concurrency := c.concurrency, startBlock := c.startBlock,
            endBlock := c.endBlock, batchSize := c.batchSize,
            blockRange := 1000 }
  | "basenames-discounts" =>
    (parseBaseConfig rpcUrl fetchConcurrencyEnv startBlockEnv endBlockEnv
        batchSizeEnv 17571486 24277300 100).bind fun c =>
      .ok { rpcUrl := c.rpcUrl,
            addresses := ["0x4cCb0BB02FCABA27e82a56646E81d8c5bC4119a5"],
            topics :=
              ["0xfe82878a5987cea7129c337d7aaa6a49585236fc104b066223bc5b5e49510e2b"],
            concurrency := c.concurrency, startBlock := c.startBlock,
            endBlock := c.endBlock, batchSize := c.batchSize,
            blockRange := 1000 }
  | _ =>
    (parseBaseConfig rpcUrl fetchConcurrencyEnv startBlockEnv endBlockEnv
        batchSizeEnv 1000000 1001000 100).bind fun c =>
      .ok { rpcUrl := c.rpcUrl,
            addresses := ["0xYourContractAddress1", "0xYourContractAddress2"],
            topics := ["0xTopic1"],
            concurrency := c.concurrency, startBlock := c.startBlock,
            endBlock := c.endBlock, batchSize := c.batchSize,
            blockRange := 1000 }

/-! ## Claim theorems for the dispatcher (C2, C3, C4, C10) -/

/-- Final state of a 2-chunk all-success runRpcTest run with ceiling 3 and
every latency 10, completions in launch order. -/
def c3FinalState : RunState :=
  onSuccess 3 2 (fun _ => 10) 1 (onSuccess 3 2 (fun _ => 10) 0 (startState 3 2))

/-! ## Claim theorems for request bodies (C7) -/

/-! ## Claim theorems for the log-scan coverage (C8) -/

/-! ## Claim theorems for the configuration (C9) -/

theorem chunkLoop_join (endBlock chunkSize : Nat) (hpos : 1 ≤ chunkSize)
    (i : Nat) :
    (chunkLoop endBlock chunkSize hpos i).flatten =
      List.range' i (endBlock + 1 - i) := by
  induction i using chunkLoop.induct endBlock chunkSize hpos with
  | case1 i hle ih =>
    rw [chunkLoop, if_pos hle, List.flatten_cons, ih, chunkAt]
    rcases le_or_lt chunkSize (endBlock + 1 - i) with hc | hc
    · have hmin : min chunkSize (endBlock + 1 - i) = chunkSize := by omega
      rw [hmin]
      have := List.range'_append i chunkSize (endBlock + 1 - (i + chunkSize)) 1
      simp only [one_mul] at this
      rw [this]
      congr 1
      omega
    · have hmin : min chunkSize (endBlock + 1 - i) = endBlock + 1 - i := by omega
      have hrec : endBlock + 1 - (i + chunkSize) = 0 := by omega
      rw [hmin, hrec]
      simp
  | case2 i hle =>
    rw [chunkLoop, if_neg hle]
    have : endBlock + 1 - i = 0 := by omega
    rw [this]
    simp

theorem createBlocksList_join (startBlock endBlock chunkSize : Nat)
    (hpos : 1 ≤ chunkSize) :
    (createBlocksList startBlock endBlock chunkSize).flatten =
      List.range' startBlock (endBlock + 1 - startBlock) := by
  rw [createBlocksList]
  split
  · rw [← List.flatMap_def]
    exact List.flatMap_singleton' _
  · exact chunkLoop_join endBlock chunkSize (by omega) startBlock

/-- C5: for startBlock <= endBlock and chunkSize >= 1, concatenating the
chunks produced by createBlocksList yields exactly the ascending list of all
integers of the inclusive interval, with no gaps or duplicates (the
concatenation equals List.range' startBlock (endBlock + 1 - startBlock)),
and the two concrete examples of the specification hold. -/
theorem createBlocksList_covers_interval :
    (∀ startBlock endBlock chunkSize : Nat, startBlock ≤ endBlock →
      1 ≤ chunkSize →
      (createBlocksList startBlock endBlock chunkSize).flatten =
        List.range' startBlock (endBlock + 1 - startBlock)) ∧
    createBlocksList 0 9 5 = [[0, 1, 2, 3, 4], [5, 6, 7, 8, 9]] ∧
    createBlocksList 0 9 1 =
      [[0], [1], [2], [3], [4], [5], [6], [7], [8], [9]] := by
  refine ⟨fun s e c _ hc => createBlocksList_join s e c hc, ?_, ?_⟩
  · simp [createBlocksList, chunkLoop, chunkAt]
    decide
  · simp [createBlocksList]
    decide

/-- Witness for createBlocksList_covers_interval at startBlock = 0,
endBlock = 9, chunkSize = 5. -/
theorem createBlocksList_covers_interval_witness :
    (createBlocksList 0 9 5).flatten = List.range' 0 (9 + 1 - 0) :=
  createBlocksList_covers_interval.1 0 9 5 (by decide) (by decide)

theorem batchSliceLoop_flatten (batchSize : Nat) (hpos : 1 ≤ batchSize)
    (ranges : List (Nat × Nat)) (i : Nat) :
    (batchSliceLoop batchSize hpos ranges i).flatten = ranges.drop i := by
  induction i using batchSliceLoop.induct batchSize hpos ranges with
  | case1 i hlt ih =>
    rw [batchSliceLoop, if_pos hlt, List.flatten_cons, ih]
    rw [← List.drop_drop, List.take_append_drop]
  | case2 i hlt =>
    rw [batchSliceLoop, if_neg hlt, List.drop_eq_nil_of_le (by omega)]
    rfl

theorem batchSliceLoop_eq_nil_iff (batchSize : Nat) (hpos : 1 ≤ batchSize)
    (ranges : List (Nat × Nat)) (i : Nat) :
    batchSliceLoop batchSize hpos ranges i = [] ↔ ranges.length ≤ i := by
  rw [batchSliceLoop]
  split
  · simp only [List.cons_ne_nil, false_iff]
    omega
  · simp only [true_iff]
    omega

theorem batchSliceLoop_length_le (batchSize : Nat) (hpos : 1 ≤ batchSize)
    (ranges : List (Nat × Nat)) (i : Nat) :
    ∀ b ∈ batchSliceLoop batchSize hpos ranges i,
      b ≠ [] ∧ b.length ≤ batchSize := by
  induction i using batchSliceLoop.induct batchSize hpos ranges with
  | case1 i hlt ih =>
    rw [batchSliceLoop, if_pos hlt]
    intro b hb
    rcases List.mem_cons.mp hb with hb | hb
    · subst hb
      constructor
      · have hlen : ((ranges.drop i).take batchSize).length =
            min batchSize (ranges.length - i) := by
          simp
        intro hnil
        rw [hnil] at hlen
        simp at hlen
        omega
      · simp
    · exact ih b hb
  | case2 i hlt =>
    rw [batchSliceLoop, if_neg hlt]
    intro b hb
    exact absurd hb (List.not_mem_nil b)

theorem batchSliceLoop_full_except_last (batchSize : Nat) (hpos : 1 ≤ batchSize)
    (ranges : List (Nat × Nat)) (i : Nat) :
    ∀ b ∈ (batchSliceLoop batchSize hpos ranges i).dropLast,
      b.length = batchSize := by
  induction i using batchSliceLoop.induct batchSize hpos ranges with
  | case1 i hlt ih =>
    rw [batchSliceLoop, if_pos hlt]
    intro b hb
    rcases hrest : batchSliceLoop batchSize hpos ranges (i + batchSize) with
      _ | ⟨r, rs⟩
    · rw [hrest] at hb
      simp at hb
    · rw [hrest] at hb
      rw [List.dropLast_cons_of_ne_nil (by simp)] at hb
      rcases List.mem_cons.mp hb with hb | hb
      · subst hb
        have hnext : i + batchSize < ranges.length := by
          by_contra hcon
          have := (batchSliceLoop_eq_nil_iff batchSize hpos ranges
            (i + batchSize)).mpr (by omega)
          rw [this] at hrest
          exact List.cons_ne_nil r rs hrest.symm
        simp
        omega
      · rw [← hrest] at hb
        exact ih b hb
  | case2 i hlt =>
    rw [batchSliceLoop, if_neg hlt]
    intro b hb
    simp at hb

theorem logRangesLoop_pairs_le (endBlock blockRange : Nat)
    (hpos : 1 ≤ blockRange) (currentStart : Nat) :
    ∀ p ∈ logRangesLoop endBlock blockRange hpos currentStart, p.1 ≤ p.2 := by
  induction currentStart using logRangesLoop.induct endBlock blockRange hpos with
  | case1 i hle ih =>
    rw [logRangesLoop, if_pos hle]
    intro p hp
    rcases List.mem_cons.mp hp with hp | hp
    · subst hp
      simp only
      omega
    · exact ih p hp
  | case2 i hle =>
    rw [logRangesLoop, if_neg hle]
    intro p hp
    exact absurd hp (List.not_mem_nil p)

theorem logRangesLoop_coverage (endBlock blockRange : Nat)
    (hpos : 1 ≤ blockRange) (currentStart : Nat) :
    ((logRangesLoop endBlock blockRange hpos currentStart).map
        windowBlocks).flatten =
      List.range' currentStart (endBlock + 1 - currentStart) := by
  induction currentStart using logRangesLoop.induct endBlock blockRange hpos with
  | case1 i hle ih =>
    rw [logRangesLoop, if_pos hle, List.map_cons, List.flatten_cons, ih]
    rw [windowBlocks]
    simp only
    have hw : min (i + blockRange - 1) endBlock + 1 - i =
        min blockRange (endBlock + 1 - i) := by omega
    rw [hw]
    rcases le_or_lt blockRange (endBlock + 1 - i) with hc | hc
    · have hmin : min blockRange (endBlock + 1 - i) = blockRange := by omega
      have hstart : min (i + blockRange - 1) endBlock + 1 = i + blockRange := by
        omega
      rw [hmin, hstart]
      have := List.range'_append i blockRange
        (endBlock + 1 - (i + blockRange)) 1
      simp only [one_mul] at this
      rw [this]
      congr 1
      omega
    · have hmin : min blockRange (endBlock + 1 - i) = endBlock + 1 - i := by
        omega
      have hstart : min (i + blockRange - 1) endBlock + 1 = endBlock + 1 := by
        omega
      have hrec : endBlock + 1 - (endBlock + 1) = 0 := by omega
      rw [hmin, hstart, hrec]
      simp
  | case2 i hle =>
    rw [logRangesLoop, if_neg hle]
    have : endBlock + 1 - i = 0 := by omega
    rw [this]
    simp

/-- C6: for startBlock <= endBlock, blockRange >= 1 and batchSize >= 1, the
batches produced by createBlocksListLogs flatten (in order) to the window
list, every window satisfies fromBlock <= toBlock, the windows' covered
blocks concatenate to exactly the ascending interval (hence the windows are
ascending, contiguous, non-overlapping and exhaustive), every batch is
non-empty of at most batchSize windows, every batch except possibly the
last has exactly batchSize windows, and the concrete example of the
specification holds. -/
theorem createBlocksListLogs_partition :
    (∀ startBlock endBlock blockRange batchSize : Nat,
      startBlock ≤ endBlock →
      ∀ (hbr : 1 ≤ blockRange) (hbs : 1 ≤ batchSize),
      (createBlocksListLogs startBlock endBlock blockRange batchSize
          hbr hbs).flatten =
        logRangesLoop endBlock blockRange hbr startBlock ∧
      (∀ p ∈ logRangesLoop endBlock blockRange hbr startBlock, p.1 ≤ p.2) ∧
      ((logRangesLoop endBlock blockRange hbr startBlock).map
          windowBlocks).flatten =
        List.range' startBlock (endBlock + 1 - startBlock) ∧
      (∀ b ∈ createBlocksListLogs startBlock endBlock blockRange batchSize
          hbr hbs, b ≠ [] ∧ b.length ≤ batchSize) ∧
      (∀ b ∈ (createBlocksListLogs startBlock endBlock blockRange batchSize
          hbr hbs).dropLast, b.length = batchSize)) ∧
    createBlocksListLogs 0 2499 1000 2 =
      [[(0, 999), (1000, 1999)], [(2000, 2499)]] := by
  constructor
  · intro s e br bs _ hbr hbs
    refine ⟨?_, logRangesLoop_pairs_le e br hbr s,
      logRangesLoop_coverage e br hbr s,
      batchSliceLoop_length_le bs hbs _ 0,
      batchSliceLoop_full_except_last bs hbs _ 0⟩
    rw [createBlocksListLogs, batchSliceLoop_flatten, List.drop_zero]
  · simp [createBlocksListLogs, logRangesLoop, batchSliceLoop]

/-- Witness for createBlocksListLogs_partition at startBlock = 0,
endBlock = 2499, blockRange = 1000, batchSize = 2. -/
theorem createBlocksListLogs_partition_witness :
    ((logRangesLoop 2499 1000 (by omega) 0).map windowBlocks).flatten =
      List.range' 0 (2499 + 1 - 0) :=
  ((createBlocksListLogs_partition.1 0 2499 1000 2 (by omega)
    (by omega) (by omega)).2.2).1

/-- Field facts about one synchronous run of the launch loop: durations,
resolvedCount, report and rejectedCount are untouched. -/
theorem launchLoop_fields (N : Int) (T : Nat) (s : RunState) :
    (launchLoop N T s).durations = s.durations ∧
    (launchLoop N T s).resolvedCount = s.resolvedCount ∧
    (launchLoop N T s).report = s.report ∧
    (launchLoop N T s).rejectedCount = s.rejectedCount := by
  induction s using launchLoop.induct N T with
  | case1 s h ih => rw [launchLoop, if_pos h]; exact ih
  | case2 s h => rw [launchLoop, if_neg h]; exact ⟨rfl, rfl, rfl, rfl⟩

/-- The launch loop only moves the cursor forward. -/
theorem launchLoop_index_ge (N : Int) (T : Nat) (s : RunState) :
    s.index ≤ (launchLoop N T s).index := by
  induction s using launchLoop.induct N T with
  | case1 s h ih =>
    rw [launchLoop, if_pos h]
    simp only at ih
    omega
  | case2 s h => rw [launchLoop, if_neg h]

/-- The launch loop never moves the cursor past the chunk count. -/
theorem launchLoop_index_le (N : Int) (T : Nat) (s : RunState)
    (hidx : s.index ≤ T) : (launchLoop N T s).index ≤ T := by
  induction s using launchLoop.induct N T with
  | case1 s h ih =>
    rw [launchLoop, if_pos h]
    exact ih (by simp only; omega)
  | case2 s h => rw [launchLoop, if_neg h]; exact hidx

/-- The launch loop keeps activeRequests equal to the number of in-flight
requests: both grow by one per launched chunk. -/
theorem launchLoop_act_len (N : Int) (T : Nat) (s : RunState)
    (hact : s.active = s.pending.length) :
    (launchLoop N T s).active = ((launchLoop N T s).pending.length : Int) := by
  induction s using launchLoop.induct N T with
  | case1 s h ih =>
    rw [launchLoop, if_pos h]
    refine ih ?_
    simp only [List.length_append, List.length_cons, List.length_nil]
    push_cast
    omega
  | case2 s h => rw [launchLoop, if_neg h]; exact hact

/-- The launch loop never pushes activeRequests past the ceiling it started
under. -/
theorem launchLoop_act_le (N : Int) (T : Nat) (s : RunState)
    (hle : s.active ≤ N) : (launchLoop N T s).active ≤ N := by
  induction s using launchLoop.induct N T with
  | case1 s h ih =>
    rw [launchLoop, if_pos h]
    exact ih (by simp only; omega)
  | case2 s h => rw [launchLoop, if_neg h]; exact hle

/-- When the launch loop stops, the ceiling is reached or the chunk list is
exhausted. -/
theorem launchLoop_stop (N : Int) (T : Nat) (s : RunState) :
    ¬((launchLoop N T s).active < N ∧ (launchLoop N T s).index < T) := by
  induction s using launchLoop.induct N T with
  | case1 s h ih => rw [launchLoop, if_pos h]; exact ih
  | case2 s h => rw [launchLoop, if_neg h]; exact h

/-- The launch loop leaves the step measure unchanged: each launched chunk
moves one unit from the undispatched count to the in-flight count. -/
theorem launchLoop_measure (N : Int) (T : Nat) (s : RunState)
    (hidx : s.index ≤ T) :
    stepMeasure T (launchLoop N T s) = stepMeasure T s := by
  induction s using launchLoop.induct N T with
  | case1 s h ih =>
    rw [launchLoop, if_pos h]
    rw [ih (by simp only; omega)]
    simp only [stepMeasure, List.length_append, List.length_cons,
      List.length_nil]
    omega
  | case2 s h => rw [launchLoop, if_neg h]

theorem inv_set_durations {N : Int} {T : Nat} {s : RunState}
    (h : Inv N T s) (d : List ℚ) : Inv N T { s with durations := d } :=
  ⟨h.act_len, h.act_le, h.idx_le, h.saturated, h.res⟩

/-- Running dispatch from a consistent, unresolved state re-establishes the
invariant. -/
theorem dispatch_inv {N : Int} {T : Nat} {s : RunState}
    (hact : s.active = (s.pending.length : Int)) (hle : s.active ≤ N)
    (hidx : s.index ≤ T) (hres : s.resolvedCount = 0) :
    Inv N T (dispatch N T s) := by
  obtain ⟨hd, hr, hrep, hrej⟩ := launchLoop_fields N T s
  have h1 := launchLoop_index_le N T s hidx
  have h2 := launchLoop_act_len N T s hact
  have h3 := launchLoop_act_le N T s hle
  have h4 := launchLoop_stop N T s
  rw [dispatch, checkCompletion]
  by_cases hc : T ≤ (launchLoop N T s).index ∧ (launchLoop N T s).active = 0
  · rw [if_pos hc]
    refine ⟨h2, h3, h1, fun _ => hc.1, ?_⟩
    show (launchLoop N T s).resolvedCount + 1 =
      if T ≤ (launchLoop N T s).index ∧ (launchLoop N T s).active = 0
      then 1 else 0
    rw [hr, hres, if_pos hc]
  · rw [if_neg hc]
    exact ⟨h2, h3, h1, fun hlt => by omega, by rw [hr, hres, if_neg hc]⟩

/-- The invariant holds right after the kick-off dispatch. -/
theorem inv_start (N : Int) (T : Nat) (hN : 0 ≤ N) :
    Inv N T (startState N T) :=
  dispatch_inv rfl hN (by simp [initState]) rfl

/-- Facts shared by both completion handlers: with a request for chunk j in
flight, the counter is positive and the run is not yet resolved. -/
theorem inv_pre_handler {N : Int} {T : Nat} {s : RunState} {j : Nat}
    (hInv : Inv N T s) (hj : j ∈ s.pending) :
    1 ≤ s.pending.length ∧ s.resolvedCount = 0 := by
  have h1 : 1 ≤ s.pending.length :=
    List.length_pos.mpr (List.ne_nil_of_mem hj)
  refine ⟨h1, ?_⟩
  have hres := hInv.res
  have hact := hInv.act_len
  rw [if_neg (by push_cast at hact; omega)] at hres
  exact hres

/-- The invariant is preserved by every completion handler. -/
theorem inv_step {N : Int} {T : Nat} {outcome : Nat → Bool} {lat : Nat → ℚ}
    {s s' : RunState} (hInv : Inv N T s) (hstep : Step N T outcome lat s s') :
    Inv N T s' := by
  cases hstep with
  | @success j hj ho =>
    obtain ⟨h1, hres0⟩ := inv_pre_handler hInv hj
    have hact := hInv.act_len
    have hle := hInv.act_le
    apply inv_set_durations
    apply dispatch_inv
    · show s.active - 1 = ((s.pending.erase j).length : Int)
      rw [List.length_erase_of_mem hj]
      push_cast
      omega
    · show s.active - 1 ≤ N
      omega
    · exact hInv.idx_le
    · exact hres0
  | @failure j hj ho =>
    obtain ⟨h1, hres0⟩ := inv_pre_handler hInv hj
    have hact := hInv.act_len
    have hle := hInv.act_le
    apply dispatch_inv
    · show s.active - 1 = ((s.pending.erase j).length : Int)
      rw [List.length_erase_of_mem hj]
      push_cast
      omega
    · show s.active - 1 ≤ N
      omega
    · exact hInv.idx_le
    · exact hres0

/-- Every reachable state of a runRpcTest run satisfies the invariant. -/
theorem reachable_inv {N : Int} {T : Nat} {outcome : Nat → Bool}
    {lat : Nat → ℚ} {s : RunState} (hN : 0 ≤ N)
    (hs : Reachable N T outcome lat s) : Inv N T s := by
  induction hs with
  | refl => exact inv_start N T hN
  | tail _ hbc ih => exact inv_step ih hbc

/-- In a drained reachable state (no request in flight) with a positive
concurrency ceiling, the whole chunk list was dispatched and the completion
signal has fired exactly once. -/
theorem reachable_terminal {N : Int} {T : Nat} {outcome : Nat → Bool}
    {lat : Nat → ℚ} {s : RunState} (hN : 1 ≤ N)
    (hs : Reachable N T outcome lat s) (hp : s.pending = []) :
    s.resolvedCount = 1 ∧ s.index = T ∧ s.active = 0 := by
  have hInv := reachable_inv (by omega) hs
  have hact : s.active = 0 := by
    have := hInv.act_len
    rw [hp] at this
    simpa using this
  have hidx : s.index = T := by
    have h1 := hInv.saturated (by omega)
    have h2 := hInv.idx_le
    omega
  refine ⟨?_, hidx, hact⟩
  have := hInv.res
  rw [if_pos ⟨by omega, hact⟩] at this
  exact this

/-- Every completion handler strictly decreases the step measure: a
runRpcTest run cannot run forever. -/
theorem step_decreases_measure {N : Int} {T : Nat} {outcome : Nat → Bool}
    {lat : Nat → ℚ} {s s' : RunState} (hN : 0 ≤ N)
    (hs : Reachable N T outcome lat s) (hstep : Step N T outcome lat s s') :
    stepMeasure T s' < stepMeasure T s := by
  have hInv := reachable_inv hN hs
  have key : ∀ j, j ∈ s.pending →
      stepMeasure T (onFailure N T j s) < stepMeasure T s := by
    intro j hj
    have h1 : 1 ≤ s.pending.length :=
      List.length_pos.mpr (List.ne_nil_of_mem hj)
    rw [onFailure, dispatch]
    have hm := launchLoop_measure N T
      { s with active := s.active - 1, pending := s.pending.erase j }
      hInv.idx_le
    have hcheck : ∀ u : RunState, stepMeasure T (checkCompletion T u) =
        stepMeasure T u := by
      intro u
      rw [checkCompletion]
      split <;> rfl
    rw [hcheck, hm]
    simp only [stepMeasure, List.length_erase_of_mem hj]
    have := hInv.idx_le
    omega
  cases hstep with
  | @success j hj ho =>
    have hk := key j hj
    rw [onFailure] at hk
    rw [onSuccess]
    simpa only [stepMeasure, List.length_append, List.length_cons,
      List.length_nil] using hk
  | @failure j hj ho =>
    exact key j hj

/-- C1: in every reachable state of a runRpcTest dispatch loop with
concurrency ceiling N >= 1, any chunk count and any interleaving of request
completions (success or failure), the outstanding-invocation counter
activeRequests satisfies 0 <= activeRequests <= N. -/
theorem dispatcher_active_bounded (N : Int) (T : Nat) (outcome : Nat → Bool)
    (lat : Nat → ℚ) (s : RunState) (hN : 1 ≤ N)
    (hs : Reachable N T outcome lat s) :
    0 ≤ s.active ∧ s.active ≤ N := by
  have hInv := reachable_inv (by omega) hs
  refine ⟨?_, hInv.act_le⟩
  rw [hInv.act_len]
  exact Int.natCast_nonneg _

/-- Witness for dispatcher_active_bounded: the state right after kick-off
with ceiling 2 and 3 chunks. -/
theorem dispatcher_active_bounded_witness :
    0 ≤ (startState 2 3).active ∧ (startState 2 3).active ≤ 2 :=
  dispatcher_active_bounded 2 3 (fun _ => true) (fun _ => 10) (startState 2 3)
    (by omega) Relation.ReflTransGen.refl

/-- C2 counterexample: in the src/getLog/index.ts dispatch variant, with
concurrency 2 and 2 ranges where the request for range 0 fails and the one
for range 1 succeeds, the run reaches the drained state with activeRequests
still 1 (never decremented for the failing unit), the run promise rejected
once (the error propagated to the top level instead of being swallowed),
and the completion signal never fired. -/
theorem getLog_failure_not_swallowed :
    GReachable 2 2 (fun j => j == 1) (fun _ => 10)
      (onSuccess 2 2 (fun _ => 10) 1 (onReject 0 (startState 2 2))) ∧
    (onSuccess 2 2 (fun _ => 10) 1 (onReject 0 (startState 2 2))).pending
      = [] ∧
    (onSuccess 2 2 (fun _ => 10) 1 (onReject 0 (startState 2 2))).rejectedCount
      = 1 ∧
    (onSuccess 2 2 (fun _ => 10) 1 (onReject 0 (startState 2 2))).resolvedCount
      = 0 ∧
    (onSuccess 2 2 (fun _ => 10) 1 (onReject 0 (startState 2 2))).active
      = 1 := by
  refine ⟨?_, ?_, ?_, ?_, ?_⟩
  · have h1 : GStep 2 2 (fun j => j == 1) (fun _ => 10) (startState 2 2)
        (onReject 0 (startState 2 2)) :=
      GStep.failure
        (by simp [startState, dispatch, initState, launchLoop,
          checkCompletion]) rfl
    have h2 : GStep 2 2 (fun j => j == 1) (fun _ => 10)
        (onReject 0 (startState 2 2))
        (onSuccess 2 2 (fun _ => 10) 1 (onReject 0 (startState 2 2))) :=
      GStep.success
        (by simp [startState, dispatch, initState, launchLoop,
          checkCompletion, onReject]) rfl
    exact Relation.ReflTransGen.tail
      (Relation.ReflTransGen.tail Relation.ReflTransGen.refl h1) h2
  all_goals
    simp [startState, dispatch, initState, launchLoop, checkCompletion,
      onReject, onSuccess, List.erase]

/-- C2 (amended): in runRpcTest (and the batch getLogs variant, which has
the same catch handler), a run where unit k fails and every other unit
succeeds swallows the failure at the dispatcher boundary: in every
reachable state the completion signal has fired at most once and the
counter is non-negative, and in every drained reachable state all units
were dispatched, the counter is back to zero (decremented for the failing
unit exactly as for successes) and the completion signal fired exactly
once. The src/getLog/index.ts variant instead rejects the run promise (see
getLog_failure_not_swallowed). -/
theorem runRpcTest_swallows_unit_failure (N : Int) (T : Nat)
    (outcome : Nat → Bool) (lat : Nat → ℚ) (k : Nat) (hN : 1 ≤ N)
    (hk : outcome k = false) (ho : ∀ j, j ≠ k → outcome j = true) :
    ∀ s, Reachable N T outcome lat s →
      s.resolvedCount ≤ 1 ∧
      0 ≤ s.active ∧
      (s.pending = [] →
        s.resolvedCount = 1 ∧ s.index = T ∧ s.active = 0) := by
  intro s hs
  have hInv := reachable_inv (by omega) hs
  refine ⟨?_, ?_, fun hp => reachable_terminal hN hs hp⟩
  · rw [hInv.res]
    split <;> omega
  · rw [hInv.act_len]
    exact Int.natCast_nonneg _

/-- Witness for runRpcTest_swallows_unit_failure: one chunk, ceiling 1,
unit 0 fails; the state after its catch handler is drained and resolved. -/
theorem runRpcTest_swallows_unit_failure_witness :
    (onFailure 1 1 0 (startState 1 1)).resolvedCount ≤ 1 ∧
    0 ≤ (onFailure 1 1 0 (startState 1 1)).active ∧
    ((onFailure 1 1 0 (startState 1 1)).pending = [] →
      (onFailure 1 1 0 (startState 1 1)).resolvedCount = 1 ∧
      (onFailure 1 1 0 (startState 1 1)).index = 1 ∧
      (onFailure 1 1 0 (startState 1 1)).active = 0) :=
  runRpcTest_swallows_unit_failure 1 1 (fun j => j != 0) (fun _ => 10) 0
    (by omega) rfl (fun j hj => by simp [hj])
    (onFailure 1 1 0 (startState 1 1))
    (Relation.ReflTransGen.tail Relation.ReflTransGen.refl
      (Step.failure
        (by simp [startState, dispatch, initState, launchLoop,
          checkCompletion]) rfl))

/-- C3 is violated by the code: in a run of 2 chunks that both succeed with
latency 10, the completion signal fires exactly once, but displayStats is
invoked (at the moment resolve fires) with only the first completed
duration, because the then-handler pushes its duration only after
re-entering dispatch. The report therefore covers 1 sample, not 2: its
total request count is 1, while 2 durations were eventually recorded. -/
theorem runRpcTest_report_misses_last_sample :
    Reachable 3 2 (fun _ => true) (fun _ => 10) c3FinalState ∧
    c3FinalState.pending = [] ∧
    c3FinalState.resolvedCount = 1 ∧
    c3FinalState.durations = [10, 10] ∧
    c3FinalState.report = some [10] ∧
    (displayStats [10] 2).totalRequests = 1 := by
  refine ⟨?_, ?_, ?_, ?_, ?_, rfl⟩
  · have h1 : Step 3 2 (fun _ => true) (fun _ => 10) (startState 3 2)
        (onSuccess 3 2 (fun _ => 10) 0 (startState 3 2)) :=
      Step.success
        (by simp [startState, dispatch, initState, launchLoop,
          checkCompletion]) rfl
    have h2 : Step 3 2 (fun _ => true) (fun _ => 10)
        (onSuccess 3 2 (fun _ => 10) 0 (startState 3 2)) c3FinalState :=
      Step.success
        (by simp [startState, dispatch, initState, launchLoop,
          checkCompletion, onSuccess, List.erase]) rfl
    exact Relation.ReflTransGen.tail
      (Relation.ReflTransGen.tail Relation.ReflTransGen.refl h1) h2
  all_goals
    simp [c3FinalState, startState, dispatch, initState, launchLoop,
      checkCompletion, onSuccess, List.erase]

/-- One dispatch call keeps durations empty and keeps the
resolution/report coupling, the all-fail preservation step. -/
theorem dispatch_all_fail_fields {N : Int} {T : Nat} {s : RunState}
    (hd : s.durations = [])
    (hrep : (s.report = none ∧ s.resolvedCount = 0) ∨ s.report = some []) :
    (dispatch N T s).durations = [] ∧
    (((dispatch N T s).report = none ∧ (dispatch N T s).resolvedCount = 0) ∨
      (dispatch N T s).report = some []) := by
  obtain ⟨hld, hlr, hlrep, _⟩ := launchLoop_fields N T s
  rw [dispatch, checkCompletion]
  split
  · refine ⟨?_, Or.inr ?_⟩
    · show (launchLoop N T s).durations = []
      rw [hld, hd]
    · show some (launchLoop N T s).durations = some []
      rw [hld, hd]
  · refine ⟨hld.trans hd, ?_⟩
    rcases hrep with ⟨h1, h2⟩ | h1
    · exact Or.inl ⟨hlrep.trans h1, hlr.trans h2⟩
    · exact Or.inr (hlrep.trans h1)

/-- In a run where every unit fails, no duration is ever recorded and the
report, once the signal fires, is the empty sample list. -/
theorem all_fail_state {N : Int} {T : Nat} {outcome : Nat → Bool}
    {lat : Nat → ℚ} {s : RunState} (hout : ∀ j, outcome j = false)
    (hs : Reachable N T outcome lat s) :
    s.durations = [] ∧
    ((s.report = none ∧ s.resolvedCount = 0) ∨ s.report = some []) := by
  induction hs with
  | refl => exact dispatch_all_fail_fields rfl (Or.inl ⟨rfl, rfl⟩)
  | tail hab hbc ih =>
    cases hbc with
    | @success j hj ho =>
      rw [hout j] at ho
      exact absurd ho (by simp)
    | @failure j hj ho =>
      exact dispatch_all_fail_fields ih.1 ih.2

/-- C4 assessment: a run in which every unit fails still drains (every
handler strictly decreases the step measure, and every drained state has
resolved exactly once) and records zero duration samples; but displayStats,
called on the empty sample list, computes Infinity, -Infinity and NaN for
min, max and mean instead of reporting that no statistics are available. -/
theorem all_fail_run_resolves_with_empty_stats :
    (∀ (N : Int) (T : Nat) (outcome : Nat → Bool) (lat : Nat → ℚ),
      1 ≤ N → (∀ j, outcome j = false) →
      ∀ s, Reachable N T outcome lat s →
        s.durations = [] ∧
        (∀ s', Step N T outcome lat s s' →
          stepMeasure T s' < stepMeasure T s) ∧
        (s.pending = [] →
          s.resolvedCount = 1 ∧ s.index = T ∧ s.report = some [])) ∧
    displayStats [] 0 =
      { totalRequests := 0, totalBlocks := 0, minTime := .posInf,
        maxTime := .negInf, avgTime := .nan } := by
  constructor
  · intro N T outcome lat hN hout s hs
    obtain ⟨hd, hrep⟩ := all_fail_state hout hs
    refine ⟨hd, fun s' hstep => step_decreases_measure (by omega) hs hstep,
      fun hp => ?_⟩
    obtain ⟨hres, hidx, _⟩ := reachable_terminal hN hs hp
    refine ⟨hres, hidx, ?_⟩
    rcases hrep with ⟨_, h0⟩ | h1
    · omega
    · exact h1
  · rfl

/-- Witness for all_fail_run_resolves_with_empty_stats: one chunk, ceiling
1, its request fails; the state after the catch handler. -/
theorem all_fail_run_resolves_with_empty_stats_witness :
    (onFailure 1 1 0 (startState 1 1)).durations = [] ∧
    (∀ s', Step 1 1 (fun _ => false) (fun _ => 10)
        (onFailure 1 1 0 (startState 1 1)) s' →
      stepMeasure 1 s' < stepMeasure 1 (onFailure 1 1 0 (startState 1 1))) ∧
    ((onFailure 1 1 0 (startState 1 1)).pending = [] →
      (onFailure 1 1 0 (startState 1 1)).resolvedCount = 1 ∧
      (onFailure 1 1 0 (startState 1 1)).index = 1 ∧
      (onFailure 1 1 0 (startState 1 1)).report = some []) :=
  all_fail_run_resolves_with_empty_stats.1 1 1 (fun _ => false) (fun _ => 10)
    (by omega) (fun _ => rfl) (onFailure 1 1 0 (startState 1 1))
    (Relation.ReflTransGen.tail Relation.ReflTransGen.refl
      (Step.failure
        (by simp [startState, dispatch, initState, launchLoop,
          checkCompletion]) rfl))

/-- C10: with concurrency 0 (a value parseBaseConfig accepts) and at least
one chunk, the kick-off dispatch launches nothing, so the run's only
reachable state is the initial one: counter and cursor stay 0, no request
is ever in flight, the completion signal never fires, and the completion
condition (cursor past the last chunk and counter zero) is never
satisfied - the run hangs. -/
theorem concurrency_zero_never_resolves :
    (∀ (T : Nat) (outcome : Nat → Bool) (lat : Nat → ℚ), 1 ≤ T →
      ∀ s, Reachable 0 T outcome lat s →
        s = initState ∧ s.active = 0 ∧ s.index = 0 ∧ s.pending = [] ∧
        s.resolvedCount = 0 ∧ ¬(T ≤ s.index ∧ s.active = 0)) ∧
    parseBaseConfig (some "http://localhost:8545")
        (.num 0) .unset .unset .unset =
      .ok { rpcUrl := "http://localhost:8545", concurrency := 0,
            startBlock := 0, endBlock := 1000, batchSize := 100 } := by
  constructor
  · intro T outcome lat hT s hs
    have hstart : startState 0 T = initState := by
      rw [startState, dispatch, launchLoop, if_neg (by simp [initState]),
        checkCompletion, if_neg (by simp [initState]; omega)]
    have key : s = initState := by
      clear hT
      induction hs with
      | refl => exact hstart
      | tail hab hbc ih =>
        subst ih
        cases hbc with
        | @success j hj ho => exact absurd hj (List.not_mem_nil j)
        | @failure j hj ho => exact absurd hj (List.not_mem_nil j)
    subst key
    refine ⟨rfl, rfl, rfl, rfl, rfl, ?_⟩
    rw [show initState.index = 0 from rfl]
    omega
  · rfl

/-- Witness for concurrency_zero_never_resolves: one chunk, the state right
after kick-off. -/
theorem concurrency_zero_never_resolves_witness :
    startState 0 1 = initState ∧ (startState 0 1).active = 0 ∧
    (startState 0 1).index = 0 ∧ (startState 0 1).pending = [] ∧
    (startState 0 1).resolvedCount = 0 ∧
    ¬(1 ≤ (startState 0 1).index ∧ (startState 0 1).active = 0) :=
  concurrency_zero_never_resolves.1 1 (fun _ => true) (fun _ => 10)
    (by omega) (startState 0 1) Relation.ReflTransGen.refl

theorem digitChar_hex : ∀ m, m < 16 → isLowerHexDigit (Nat.digitChar m) := by
  decide

theorem toDigitsCore_hex (fuel : Nat) : ∀ (n : Nat) (ds : List Char),
    (∀ c ∈ ds, isLowerHexDigit c) →
    ∀ c ∈ Nat.toDigitsCore 16 fuel n ds, isLowerHexDigit c := by
  induction fuel with
  | zero =>
    intro n ds hds c hc
    rw [Nat.toDigitsCore] at hc
    exact hds c hc
  | succ fuel ih =>
    intro n ds hds c hc
    rw [Nat.toDigitsCore] at hc
    have hd : ∀ x ∈ (Nat.digitChar (n % 16)) :: ds, isLowerHexDigit x := by
      intro x hx
      rcases List.mem_cons.mp hx with hx | hx
      · subst hx
        exact digitChar_hex _ (Nat.mod_lt _ (by omega))
      · exact hds x hx
    by_cases h : n / 16 = 0
    · rw [if_pos h] at hc
      exact hd c hc
    · rw [if_neg h] at hc
      exact ih (n / 16) _ hd c hc

theorem toDigits_hex (n : Nat) : ∀ c ∈ Nat.toDigits 16 n, isLowerHexDigit c := by
  rw [Nat.toDigits]
  exact toDigitsCore_hex (n + 1) n []
    (fun c hc => absurd hc (List.not_mem_nil c))

/-- C7 counterexample: the fetchLogs of src/getLog/index.ts sends a single
bare call object, not a JSON array, even though its work unit contains a
single logical call. -/
theorem fetchLogsSingleBody_not_array :
    (fetchLogsSingleBody (ethGetLogsFilter 0 999 [] [])).isArray = false :=
  rfl

/-- C7 (amended): the bodies built by makeBatchRequest and by the batch
getLogs fetchLogs are JSON arrays of call objects whose i-th element has
jsonrpc "2.0", id i (1-based sequential), the configured method and a
params array, with block numbers encoded as "0x"-prefixed lowercase
hexadecimal; but the single-call eth_getLogs entry point
(src/getLog/index.ts) sends one bare call object with fixed id 1 rather
than an array. -/
theorem request_bodies_shape :
    (∀ (rpcMethod : String) (blockNumbers : List Nat) (t : Nat → List Json),
      ∃ calls,
        makeBatchRequestPayload rpcMethod blockNumbers t = .batch calls ∧
        calls.map (fun c => c.id) = List.range' 1 blockNumbers.length ∧
        calls.map (fun c => c.jsonrpc) =
          List.replicate blockNumbers.length "2.0" ∧
        calls.map (fun c => c.method) =
          List.replicate blockNumbers.length rpcMethod ∧
        calls.map (fun c => c.params) = blockNumbers.map t) ∧
    (∀ (blockRanges : List (Nat × Nat)) (addresses topics : List String),
      ∃ calls,
        fetchLogsBatchPayload blockRanges addresses topics = .batch calls ∧
        calls.map (fun c => c.id) = List.range' 1 blockRanges.length ∧
        calls.map (fun c => c.params) = blockRanges.map
          (fun p => [ethGetLogsFilter p.1 p.2 addresses topics])) ∧
    (∀ n : Nat, (toHexString n).data = '0' :: 'x' :: Nat.toDigits 16 n ∧
      ∀ c ∈ Nat.toDigits 16 n, isLowerHexDigit c) ∧
    (∀ b : Nat,
      getBlockByNumberParams b = [.str (toHexString b), .bool false]) ∧
    (∀ b : Nat, getBlockReceiptsParams b = [.str (toHexString b)]) ∧
    (∀ f : Json, fetchLogsSingleBody f =
      .single { jsonrpc := "2.0", id := 1, method := "eth_getLogs",
                params := [f] }) := by
  refine ⟨?_, ?_, ?_, fun b => rfl, fun b => rfl, fun f => rfl⟩
  · intro rpcMethod blockNumbers t
    refine ⟨_, rfl, ?_, ?_, ?_, ?_⟩
    · rw [List.map_map]
      show blockNumbers.enum.map ((fun x => x + 1) ∘ Prod.fst) =
        List.range' 1 blockNumbers.length
      rw [← List.map_map, List.enum_map_fst, List.range'_eq_map_range]
      simp [Nat.add_comm]
    · rw [List.map_map]
      show blockNumbers.enum.map (fun _ => "2.0") =
        List.replicate blockNumbers.length "2.0"
      rw [List.map_const']
      simp
    · rw [List.map_map]
      show blockNumbers.enum.map (fun _ => rpcMethod) =
        List.replicate blockNumbers.length rpcMethod
      rw [List.map_const']
      simp
    · rw [List.map_map]
      show blockNumbers.enum.map (t ∘ Prod.snd) = blockNumbers.map t
      rw [← List.map_map, List.enum_map_snd]
  · intro blockRanges addresses topics
    refine ⟨_, rfl, ?_, ?_⟩
    · rw [List.map_map]
      show blockRanges.enum.map ((fun x => x + 1) ∘ Prod.fst) =
        List.range' 1 blockRanges.length
      rw [← List.map_map, List.enum_map_fst, List.range'_eq_map_range]
      simp [Nat.add_comm]
    · rw [List.map_map]
      show blockRanges.enum.map
          ((fun p => [ethGetLogsFilter p.1 p.2 addresses topics]) ∘ Prod.snd)
        = blockRanges.map (fun p => [ethGetLogsFilter p.1 p.2 addresses topics])
      rw [← List.map_map, List.enum_map_snd]
  · intro n
    refine ⟨?_, toDigits_hex n⟩
    rw [toHexString, String.data_append]
    rfl

/-- Witness for request_bodies_shape: the hex-digit clause evaluated at
n = 255, whose digits are two lowercase f characters. -/
theorem request_bodies_shape_witness : isLowerHexDigit 'f' :=
  (request_bodies_shape.2.2.1 255).2 'f' (by decide)

/-- Folding response items none of which keys back to a requested range
leaves the (minBlock, maxBlock) accumulator untouched. -/
theorem coverFold_no_match (blockRanges : List (Nat × Nat)) :
    ∀ (results : List RpcResponseItem) (mm : Nat × Nat),
    (∀ item ∈ results, rangeAt blockRanges item.id = none) →
    results.foldl (coverFold blockRanges) mm = mm := by
  intro results
  induction results with
  | nil => intro mm h; rfl
  | cons a l ih =>
    intro mm h
    rw [List.foldl_cons]
    have ha : coverFold blockRanges mm a = mm := by
      rw [coverFold, h a (List.mem_cons_self a l)]
    rw [ha]
    exact ih mm (fun item hi => h item (List.mem_cons_of_mem a hi))

/-- C8 counterexample: an empty batch response (no id matches anything)
makes fetchLogs report coverage fromBlock = 0, toBlock = 0, and folding
that into the run adds 0 - 0 + 1 = 1 to totalBlocksScanned: the counter
moves from 0 to 1 even though no block was covered. -/
theorem logs_coverage_counterexample :
    fetchLogsCoverage [(100, 199)] [] =
      { logsCount := 0, fromBlock := 0, toBlock := 0 } ∧
    addBlocksScanned 0 (fetchLogsCoverage [(100, 199)] []) = 1 := by
  constructor <;> rfl

/-- C8 (amended): when no response id matches any requested range, the
computed coverage defaults to fromBlock = 0 and toBlock = 0 (a sentinel
that reads as covering block 0), and folding that result into the
aggregates adds exactly 1 to the blocks-scanned counter rather than
leaving it unchanged. -/
theorem logs_coverage_no_match (blockRanges : List (Nat × Nat))
    (results : List RpcResponseItem)
    (h : ∀ item ∈ results, rangeAt blockRanges item.id = none) :
    (fetchLogsCoverage blockRanges results).fromBlock = 0 ∧
    (fetchLogsCoverage blockRanges results).toBlock = 0 ∧
    ∀ t : Int, addBlocksScanned t (fetchLogsCoverage blockRanges results)
      = t + 1 := by
  have hfold := coverFold_no_match blockRanges results (maxSafeInteger, 0) h
  have hfrom : (fetchLogsCoverage blockRanges results).fromBlock = 0 := by
    rw [fetchLogsCoverage]
    simp [hfold]
  have hto : (fetchLogsCoverage blockRanges results).toBlock = 0 := by
    rw [fetchLogsCoverage]
    simp only [hfold]
  refine ⟨hfrom, hto, fun t => ?_⟩
  rw [addBlocksScanned, hfrom, hto]
  omega

/-- Witness for logs_coverage_no_match: one requested range and one
response item whose id 7 keys to no range. -/
theorem logs_coverage_no_match_witness :
    (fetchLogsCoverage [(100, 199)]
      [{ id := 7, resultCount := 3 }]).fromBlock = 0 ∧
    (fetchLogsCoverage [(100, 199)]
      [{ id := 7, resultCount := 3 }]).toBlock = 0 ∧
    ∀ t : Int, addBlocksScanned t
      (fetchLogsCoverage [(100, 199)] [{ id := 7, resultCount := 3 }])
      = t + 1 :=
  logs_coverage_no_match [(100, 199)] [{ id := 7, resultCount := 3 }]
    (by
      intro item hi
      rw [List.mem_singleton] at hi
      subst hi
      rfl)

/-- C9 counterexample: createScenario with a scenario name that does not
exist does not terminate the process; it falls through to the default case
and returns the default configuration. -/
theorem unknown_scenario_does_not_exit :
    createScenario (some "http://example.com") "does-not-exist"
        .unset .unset .unset .unset =
      .ok { rpcUrl := "http://example.com",
            addresses := ["0xYourContractAddress1", "0xYourContractAddress2"],
            topics := ["0xTopic1"], concurrency := 5, startBlock := 1000000,
            endBlock := 1001000, batchSize := 100, blockRange := 1000 } ∧
    (createScenario (some "http://example.com") "does-not-exist"
        .unset .unset .unset .unset).isOk = true := by
  constructor <;> rfl

/-- C9 (amended): configuration errors other than an unknown scenario fail
fast before any dispatch: a missing RPC URL exits with code 1; a
non-numeric FETCH_CONCURRENCY, or one above 100000 or below 0, aborts with
an uncaught thrown Error (FETCH_CONCURRENCY defaults to 5 when unset and
every integer 0..100000 is accepted); a non-numeric START_BLOCK or
END_BLOCK exits with code 1; a non-numeric or below-1 CHUNK_SIZE exits
with code 1. An unknown scenario name, however, does NOT terminate:
createScenario logs a message and proceeds with the default configuration. -/
theorem config_fail_fast_behaviour :
    (∀ (c s e b : EnvNum) (d1 d2 d3 : Int),
      parseBaseConfig none c s e b d1 d2 d3 = .exit 1) ∧
    (∀ (url : String) (s e b : EnvNum) (d1 d2 d3 : Int),
      parseBaseConfig (some url) .nan s e b d1 d2 d3 = .thrown
        "FETCH_CONCURRENCY environment variable must be a number less than 100000") ∧
    (∀ (url : String) (v : Int) (s e b : EnvNum) (d1 d2 d3 : Int),
      100000 < v ∨ v < 0 →
      parseBaseConfig (some url) (.num v) s e b d1 d2 d3 = .thrown
        "FETCH_CONCURRENCY environment variable must be a number less than 100000") ∧
    (∀ (url : String) (d1 d2 d3 : Int),
      parseBaseConfig (some url) .unset .unset .unset .unset d1 d2 d3 =
        .ok { rpcUrl := url, concurrency := 5, startBlock := d1,
              endBlock := d2, batchSize := d3 }) ∧
    (∀ (url : String) (v : Int) (d1 d2 d3 : Int), 0 ≤ v → v ≤ 100000 →
      parseBaseConfig (some url) (.num v) .unset .unset .unset d1 d2 d3 =
        .ok { rpcUrl := url, concurrency := v, startBlock := d1,
              endBlock := d2, batchSize := d3 }) ∧
    (∀ (url : String) (e b : EnvNum) (d1 d2 d3 : Int),
      parseBaseConfig (some url) .unset .nan e b d1 d2 d3 = .exit 1) ∧
    (∀ (url : String) (b : EnvNum) (d1 d2 d3 : Int),
      parseBaseConfig (some url) .unset .unset .nan b d1 d2 d3 = .exit 1) ∧
    (∀ (url : String) (d1 d2 d3 : Int),
      parseBaseConfig (some url) .unset .unset .unset .nan d1 d2 d3 =
        .exit 1) ∧
    (∀ (url : String) (v : Int) (d1 d2 d3 : Int), v < 1 →
      parseBaseConfig (some url) .unset .unset .unset (.num v) d1 d2 d3 =
        .exit 1) ∧
    (∀ (scenarioName url : String),
      scenarioName ≠ "usdc-approvals" →
      scenarioName ≠ "usdc-aave-withdrawals" →
      scenarioName ≠ "user-token-transfers" →
      scenarioName ≠ "basenames-discounts" →
      createScenario (some url) scenarioName .unset .unset .unset .unset =
        .ok { rpcUrl := url,
              addresses :=
                ["0xYourContractAddress1", "0xYourContractAddress2"],
              topics := ["0xTopic1"], concurrency := 5,
              startBlock := 1000000, endBlock := 1001000, batchSize := 100,
              blockRange := 1000 }) := by
  refine ⟨fun c s e b d1 d2 d3 => rfl, fun url s e b d1 d2 d3 => rfl,
    ?_, fun url d1 d2 d3 => rfl, ?_,
    fun url e b d1 d2 d3 => rfl, fun url b d1 d2 d3 => rfl,
    fun url d1 d2 d3 => rfl, ?_, ?_⟩
  · intro url v s e b d1 d2 d3 hv
    simp only [parseBaseConfig]
    rw [if_pos hv]
    rfl
  · intro url v d1 d2 d3 h0 h1
    simp only [parseBaseConfig]
    rw [if_neg (by omega : ¬(100000 < v ∨ v < 0))]
    rfl
  · intro url v d1 d2 d3 hv
    simp only [parseBaseConfig]
    rw [if_pos hv]
    rfl
  · intro scenarioName url h1 h2 h3 h4
    rw [createScenario]
    · rfl
    · exact h1
    · exact h2
    · exact h3
    · exact h4

/-- Witness for config_fail_fast_behaviour: FETCH_CONCURRENCY = 200000 is
rejected with a thrown Error, and the scenario name "default" itself hits
the fall-through case. -/
theorem config_fail_fast_behaviour_witness :
    parseBaseConfig (some "http://localhost") (.num 200000)
        .unset .unset .unset 0 1000 100 = .thrown
      "FETCH_CONCURRENCY environment variable must be a number less than 100000" ∧
    createScenario (some "http://localhost") "default"
        .unset .unset .unset .unset =
      .ok { rpcUrl := "http://localhost",
            addresses := ["0xYourContractAddress1", "0xYourContractAddress2"],
            topics := ["0xTopic1"], concurrency := 5, startBlock := 1000000,
            endBlock := 1001000, batchSize := 100, blockRange := 1000 } :=
  ⟨config_fail_fast_behaviour.2.2.1 "http://localhost" 200000
      .unset .unset .unset 0 1000 100 (by omega),
    (config_fail_fast_behaviour.2.2.2.2.2.2.2.2.2 "default" "http://localhost"
      (by decide) (by decide) (by decide) (by decide))⟩

end LoadTest
